import Mathlib

/-!
Shallow embedding of the `simple-window` library (src/lib.rs, src/utility.rs):
a cross-platform window abstraction whose core is the translation of raw
platform messages (Win32 messages, X11/XCB events) into a portable
`WindowEvent` vocabulary, together with the `previous_size` bookkeeping that
deduplicates resize notifications.

Machine integers are modelled as `Nat`/`Int` with explicit two's-complement
reinterpretation where the source casts between widths (`as i16`, `as u32`).
Calls that can terminate the process on bad input (the `Unrecognized ...`
decode failures in the source) are modelled with `Option`: `none` is the
abort.  Opaque OS calls (XkbKeycodeToKeysym, GetClientRect, window and
connection handles, AdjustWindowRectEx border metrics) are modelled as
inputs supplied by the environment.
-/

namespace SimpleWindow

/-- Reinterpret the low 16 bits of a machine word as a signed 16-bit value
(the Rust cast `as i16` applied after masking with 0xFFFF). -/
def i16_of_bits (n : Nat) : Int :=
  if n % 65536 < 32768 then (n % 65536 : Int) else (n % 65536 : Int) - 65536

/-- The 16-bit two's-complement pattern of a signed 16-bit value. -/
def bits_of_i16 (v : Int) : Nat :=
  (v % 65536).toNat

/-- The Rust cast `as u32` applied to a signed machine integer. -/
def u32_of_int (v : Int) : Nat :=
  (v % 4294967296).toNat

/-- Portable key identifiers (source `pub enum Keys`, lib.rs lines 680-807). -/
inductive Keys
  | Backspace | Enter | Tab | Shift | Control
  | Pause | Capital
  | Escape
  | Convert | Nonconvert | Accept | Modechange
  | Space | Prior | Next | End | Home
  | Left | Up | Right | Down
  | Select | Print | Execute | Snapshot | Insert | Delete | Help
  | A | B | C | D | E | F | G | H | I | J | K | L | M
  | N | O | P | Q | R | S | T | U | V | W | X | Y | Z
  | LWin | RWin | Apps
  | Sleep
  | Numpad0 | Numpad1 | Numpad2 | Numpad3 | Numpad4
  | Numpad5 | Numpad6 | Numpad7 | Numpad8 | Numpad9
  | Multiply | Add | Separator | Subtract | Decimal | Divide
  | F1 | F2 | F3 | F4 | F5 | F6 | F7 | F8 | F9 | F10 | F11 | F12
  | F13 | F14 | F15 | F16 | F17 | F18 | F19 | F20 | F21 | F22 | F23 | F24
  | Numlock | Scroll
  | NumpadEqual
  | LShift | RShift | LControl | RControl | LMenu | RMenu
  | Semicolon | Plus | Comma | Minus | Period | Slash | Grave
deriving DecidableEq

/-- Portable mouse buttons (source `pub enum MouseButton`). -/
inductive MouseButton
  | Left
  | Right
  | Middle
deriving DecidableEq

/-- Portable input events (source `pub enum WindowInputEvent`).  The `i16`
payloads are modelled as `Int` values (always produced in 16-bit range). -/
inductive WindowInputEvent
  | KeyDown (key : Keys)
  | KeyUp (key : Keys)
  | MouseDown (button : MouseButton)
  | MouseUp (button : MouseButton)
  | MouseMove (x y : Int)
  | MouseWheelMove (delta : Int)
deriving DecidableEq

/-- Portable window events (source `pub enum WindowEvent`). -/
inductive WindowEvent
  | Close
  | Resize (width height : Nat)
  | Input (event : WindowInputEvent)
deriving DecidableEq

/-- Win32 virtual-key decoding table (source `Keys::from_usize`, lib.rs
lines 810-940): a `match` over disjoint integer literals, rendered as an
ordered lookup table with one entry per source match arm, in source order.
The source diverges to a process abort on an unlisted code; that abort is
modelled as `none`. -/
def win32_key_table : List (Nat × Keys) :=
  [(0x08, Keys.Backspace),
   (0x0D, Keys.Enter),
   (0x09, Keys.Tab),
   (0x10, Keys.Shift),
   (0x11, Keys.Control),
   (0x13, Keys.Pause),
   (0x14, Keys.Capital),
   (0x1B, Keys.Escape),
   (0x1C, Keys.Convert),
   (0x1D, Keys.Nonconvert),
   (0x1E, Keys.Accept),
   (0x1F, Keys.Modechange),
   (0x20, Keys.Space),
   (0x21, Keys.Prior),
   (0x22, Keys.Next),
   (0x23, Keys.End),
   (0x24, Keys.Home),
   (0x25, Keys.Left),
   (0x26, Keys.Up),
   (0x27, Keys.Right),
   (0x28, Keys.Down),
   (0x29, Keys.Select),
   (0x2A, Keys.Print),
   (0x2B, Keys.Execute),
   (0x2C, Keys.Snapshot),
   (0x2D, Keys.Insert),
   (0x2E, Keys.Delete),
   (0x2F, Keys.Help),
   (0x41, Keys.A),
   (0x42, Keys.B),
   (0x43, Keys.C),
   (0x44, Keys.D),
   (0x45, Keys.E),
   (0x46, Keys.F),
   (0x47, Keys.G),
   (0x48, Keys.H),
   (0x49, Keys.I),
   (0x4A, Keys.J),
   (0x4B, Keys.K),
   (0x4C, Keys.L),
   (0x4D, Keys.M),
   (0x4E, Keys.N),
   (0x4F, Keys.O),
   (0x50, Keys.P),
   (0x51, Keys.Q),
   (0x52, Keys.R),
   (0x53, Keys.S),
   (0x54, Keys.T),
   (0x55, Keys.U),
   (0x56, Keys.V),
   (0x57, Keys.W),
   (0x58, Keys.X),
   (0x59, Keys.Y),
   (0x5A, Keys.Z),
   (0x5B, Keys.LWin),
   (0x5C, Keys.RWin),
   (0x5D, Keys.Apps),
   (0x5F, Keys.Sleep),
   (0x60, Keys.Numpad0),
   (0x61, Keys.Numpad1),
   (0x62, Keys.Numpad2),
   (0x63, Keys.Numpad3),
   (0x64, Keys.Numpad4),
   (0x65, Keys.Numpad5),
   (0x66, Keys.Numpad6),
   (0x67, Keys.Numpad7),
   (0x68, Keys.Numpad8),
   (0x69, Keys.Numpad9),
   (0x6A, Keys.Multiply),
   (0x6B, Keys.Add),
   (0x6C, Keys.Separator),
   (0x6D, Keys.Subtract),
   (0x6E, Keys.Decimal),
   (0x6F, Keys.Divide),
   (0x70, Keys.F1),
   (0x71, Keys.F2),
   (0x72, Keys.F3),
   (0x73, Keys.F4),
   (0x74, Keys.F5),
   (0x75, Keys.F6),
   (0x76, Keys.F7),
   (0x77, Keys.F8),
   (0x78, Keys.F9),
   (0x79, Keys.F10),
   (0x7A, Keys.F11),
   (0x7B, Keys.F12),
   (0x7C, Keys.F13),
   (0x7D, Keys.F14),
   (0x7E, Keys.F15),
   (0x7F, Keys.F16),
   (0x80, Keys.F17),
   (0x81, Keys.F18),
   (0x82, Keys.F19),
   (0x83, Keys.F20),
   (0x84, Keys.F21),
   (0x85, Keys.F22),
   (0x86, Keys.F23),
   (0x87, Keys.F24),
   (0x90, Keys.Numlock),
   (0x91, Keys.Scroll),
   (0x92, Keys.NumpadEqual),
   (0xA0, Keys.LShift),
   (0xA1, Keys.RShift),
   (0xA2, Keys.LControl),
   (0xA3, Keys.RControl),
   (0xA4, Keys.LMenu),
   (0xA5, Keys.RMenu),
   (0xBA, Keys.Semicolon),
   (0xBB, Keys.Plus),
   (0xBC, Keys.Comma),
   (0xBD, Keys.Minus),
   (0xBE, Keys.Period),
   (0xBF, Keys.Slash),
   (0xC0, Keys.Grave)]

/-- `Keys::from_usize`: decode a Win32 virtual-key code, aborting (`none`)
on a code outside the table. -/
def Keys.from_usize (s : Nat) : Option Keys :=
  win32_key_table.lookup s

/-- The exact set of Win32 virtual-key codes listed in `Keys::from_usize`. -/
def win32_key_codes : List Nat :=
  [0x08, 0x0D, 0x09, 0x10, 0x11, 0x13, 0x14, 0x1B, 0x1C, 0x1D, 0x1E, 0x1F,
   0x20, 0x21, 0x22, 0x23, 0x24, 0x25, 0x26, 0x27, 0x28, 0x29, 0x2A, 0x2B,
   0x2C, 0x2D, 0x2E, 0x2F,
   0x41, 0x42, 0x43, 0x44, 0x45, 0x46, 0x47, 0x48, 0x49, 0x4A, 0x4B, 0x4C,
   0x4D, 0x4E, 0x4F, 0x50, 0x51, 0x52, 0x53, 0x54, 0x55, 0x56, 0x57, 0x58,
   0x59, 0x5A,
   0x5B, 0x5C, 0x5D, 0x5F,
   0x60, 0x61, 0x62, 0x63, 0x64, 0x65, 0x66, 0x67, 0x68, 0x69, 0x6A, 0x6B,
   0x6C, 0x6D, 0x6E, 0x6F,
   0x70, 0x71, 0x72, 0x73, 0x74, 0x75, 0x76, 0x77, 0x78, 0x79, 0x7A, 0x7B,
   0x7C, 0x7D, 0x7E, 0x7F, 0x80, 0x81, 0x82, 0x83, 0x84, 0x85, 0x86, 0x87,
   0x90, 0x91, 0x92,
   0xA0, 0xA1, 0xA2, 0xA3, 0xA4, 0xA5,
   0xBA, 0xBB, 0xBC, 0xBD, 0xBE, 0xBF, 0xC0]

/-- X11 keysym decoding table: the `match key_sym` arm of the source
`Window::translate_key_code` (lib.rs lines 342-472), a `match` over
disjoint integer literals rendered as an ordered lookup table with one
entry per source pattern, in source order (an alternative pattern such as
`XK_a | XK_A` contributes two entries).  Numeric keysym values are the
standard X11 `keysymdef.h` constants re-exported by the `x11` crate. -/
def x_key_table : List (Nat × Keys) :=
  [(0xFF08, Keys.Backspace),
   (0xFF0D, Keys.Enter),
   (0xFF09, Keys.Tab),
   (0xFF13, Keys.Pause),
   (0xFFE5, Keys.Capital),
   (0xFF1B, Keys.Escape),
   (0xFF7E, Keys.Modechange),
   (0x0020, Keys.Space),
   (0xFF55, Keys.Prior),
   (0xFF56, Keys.Next),
   (0xFF57, Keys.End),
   (0xFF50, Keys.Home),
   (0xFF51, Keys.Left),
   (0xFF52, Keys.Up),
   (0xFF53, Keys.Right),
   (0xFF54, Keys.Down),
   (0xFF60, Keys.Select),
   (0xFF61, Keys.Print),
   (0xFF62, Keys.Execute),
   (0xFF63, Keys.Insert),
   (0xFFFF, Keys.Delete),
   (0xFF6A, Keys.Help),
   (0xFFEB, Keys.LWin),
   (0xFFEC, Keys.RWin),
   (0xFFB0, Keys.Numpad0),
   (0xFFB1, Keys.Numpad1),
   (0xFFB2, Keys.Numpad2),
   (0xFFB3, Keys.Numpad3),
   (0xFFB4, Keys.Numpad4),
   (0xFFB5, Keys.Numpad5),
   (0xFFB6, Keys.Numpad6),
   (0xFFB7, Keys.Numpad7),
   (0xFFB8, Keys.Numpad8),
   (0xFFB9, Keys.Numpad9),
   (0x00D7, Keys.Multiply),
   (0xFFAB, Keys.Add),
   (0xFFAC, Keys.Separator),
   (0xFFAD, Keys.Subtract),
   (0xFFAE, Keys.Decimal),
   (0xFFAF, Keys.Divide),
   (0xFFBE, Keys.F1),
   (0xFFBF, Keys.F2),
   (0xFFC0, Keys.F3),
   (0xFFC1, Keys.F4),
   (0xFFC2, Keys.F5),
   (0xFFC3, Keys.F6),
   (0xFFC4, Keys.F7),
   (0xFFC5, Keys.F8),
   (0xFFC6, Keys.F9),
   (0xFFC7, Keys.F10),
   (0xFFC8, Keys.F11),
   (0xFFC9, Keys.F12),
   (0xFFCA, Keys.F13),
   (0xFFCB, Keys.F14),
   (0xFFCC, Keys.F15),
   (0xFFCD, Keys.F16),
   (0xFFCE, Keys.F17),
   (0xFFCF, Keys.F18),
   (0xFFD0, Keys.F19),
   (0xFFD1, Keys.F20),
   (0xFFD2, Keys.F21),
   (0xFFD3, Keys.F22),
   (0xFFD4, Keys.F23),
   (0xFFD5, Keys.F24),
   (0xFF7F, Keys.Numlock),
   (0xFF14, Keys.Scroll),
   (0xFFBD, Keys.NumpadEqual),
   (0xFFE1, Keys.LShift),
   (0xFFE2, Keys.RShift),
   (0xFFE3, Keys.LControl),
   (0xFFE4, Keys.RControl),
   (0xFF67, Keys.RMenu),
   (0x003B, Keys.Semicolon),
   (0x002B, Keys.Plus),
   (0x002C, Keys.Comma),
   (0x002D, Keys.Minus),
   (0x002E, Keys.Period),
   (0x002F, Keys.Slash),
   (0x0060, Keys.Grave),
   (0x0061, Keys.A),
   (0x0041, Keys.A),
   (0x0062, Keys.B),
   (0x0042, Keys.B),
   (0x0063, Keys.C),
   (0x0043, Keys.C),
   (0x0064, Keys.D),
   (0x0044, Keys.D),
   (0x0065, Keys.E),
   (0x0045, Keys.E),
   (0x0066, Keys.F),
   (0x0046, Keys.F),
   (0x0067, Keys.G),
   (0x0047, Keys.G),
   (0x0068, Keys.H),
   (0x0048, Keys.H),
   (0x0069, Keys.I),
   (0x0049, Keys.I),
   (0x006A, Keys.J),
   (0x004A, Keys.J),
   (0x006B, Keys.K),
   (0x004B, Keys.K),
   (0x006C, Keys.L),
   (0x004C, Keys.L),
   (0x006D, Keys.M),
   (0x004D, Keys.M),
   (0x006E, Keys.N),
   (0x004E, Keys.N),
   (0x006F, Keys.O),
   (0x004F, Keys.O),
   (0x0070, Keys.P),
   (0x0050, Keys.P),
   (0x0071, Keys.Q),
   (0x0051, Keys.Q),
   (0x0072, Keys.R),
   (0x0052, Keys.R),
   (0x0073, Keys.S),
   (0x0053, Keys.S),
   (0x0074, Keys.T),
   (0x0054, Keys.T),
   (0x0075, Keys.U),
   (0x0055, Keys.U),
   (0x0076, Keys.V),
   (0x0056, Keys.V),
   (0x0077, Keys.W),
   (0x0057, Keys.W),
   (0x0078, Keys.X),
   (0x0058, Keys.X),
   (0x0079, Keys.Y),
   (0x0059, Keys.Y),
   (0x007A, Keys.Z),
   (0x005A, Keys.Z)]

/-- The keysym half of `Window::translate_key_code`.  The source first maps
the hardware keycode to a keysym through the opaque OS call
`XkbKeycodeToKeysym`; that conversion is environment-supplied, so this
function takes the keysym itself.  The process abort on an unlisted keysym
is modelled as `none`. -/
def translate_key_sym (key_sym : Nat) : Option Keys :=
  x_key_table.lookup key_sym

/-- The exact set of X11 keysyms listed in the `translate_key_code` match. -/
def x_key_syms : List Nat :=
  [0xFF08, 0xFF0D, 0xFF09, 0xFF13, 0xFFE5, 0xFF1B, 0xFF7E, 0x0020,
   0xFF55, 0xFF56, 0xFF57, 0xFF50, 0xFF51, 0xFF52, 0xFF53, 0xFF54,
   0xFF60, 0xFF61, 0xFF62, 0xFF63, 0xFFFF, 0xFF6A, 0xFFEB, 0xFFEC,
   0xFFB0, 0xFFB1, 0xFFB2, 0xFFB3, 0xFFB4, 0xFFB5, 0xFFB6, 0xFFB7,
   0xFFB8, 0xFFB9, 0x00D7, 0xFFAB, 0xFFAC, 0xFFAD, 0xFFAE, 0xFFAF,
   0xFFBE, 0xFFBF, 0xFFC0, 0xFFC1, 0xFFC2, 0xFFC3, 0xFFC4, 0xFFC5,
   0xFFC6, 0xFFC7, 0xFFC8, 0xFFC9, 0xFFCA, 0xFFCB, 0xFFCC, 0xFFCD,
   0xFFCE, 0xFFCF, 0xFFD0, 0xFFD1, 0xFFD2, 0xFFD3, 0xFFD4, 0xFFD5,
   0xFF7F, 0xFF14, 0xFFBD, 0xFFE1, 0xFFE2, 0xFFE3, 0xFFE4, 0xFF67,
   0x003B, 0x002B, 0x002C, 0x002D, 0x002E, 0x002F, 0x0060,
   0x0061, 0x0041, 0x0062, 0x0042, 0x0063, 0x0043, 0x0064, 0x0044,
   0x0065, 0x0045, 0x0066, 0x0046, 0x0067, 0x0047, 0x0068, 0x0048,
   0x0069, 0x0049, 0x006A, 0x004A, 0x006B, 0x004B, 0x006C, 0x004C,
   0x006D, 0x004D, 0x006E, 0x004E, 0x006F, 0x004F, 0x0070, 0x0050,
   0x0071, 0x0051, 0x0072, 0x0052, 0x0073, 0x0053, 0x0074, 0x0054,
   0x0075, 0x0055, 0x0076, 0x0056, 0x0077, 0x0057, 0x0078, 0x0058,
   0x0079, 0x0059, 0x007A, 0x005A]

/-- X11 mouse-button decoding: the `match event.detail() as c_uint` arm of
`poll_messages_linux_x` (Button1 = 1, Button2 = 2, Button3 = 3 in the `x11`
crate).  The process abort on any other button code is modelled as `none`. -/
def button_of_detail (detail : Nat) : Option MouseButton :=
  match detail with
  | 1 => some .Left
  | 2 => some .Middle
  | 3 => some .Right
  | _ => none

/-- The Linux/XCB build of the source `struct Window`: `previous_size`
plus the platform identity fields (`connection` is the raw connection
pointer, `window` the XCB window id, `screen` the screen number,
`wm_del_window` the interned WM_DELETE_WINDOW atom, all environment
supplied opaque values). -/
structure WindowLinuxX where
  previous_size : Nat × Nat
  connection : Nat
  window : Nat
  screen : Int
  wm_del_window : Nat
deriving DecidableEq

/-- One XCB event as consumed by `poll_messages_linux_x`.  Key events carry
the keysym the opaque `XkbKeycodeToKeysym` call produces for their keycode;
motion events carry the `event_x`/`event_y` fields (i16); configure events
carry `width`/`height` (u16, read `as u32`); client messages carry the
first 32-bit datum of a `Data32` payload (other payload formats fall under
`other`, as does every event type the source ignores). -/
inductive XEvent
  | keyPress (key_sym : Nat)
  | keyRelease (key_sym : Nat)
  | buttonPress (detail : Nat)
  | buttonRelease (detail : Nat)
  | motionNotify (event_x event_y : Int)
  | configureNotify (width height : Nat)
  | clientMessage (data32_head : Nat)
  | other
deriving DecidableEq

/-- `Window::new_linux_x` (lib.rs lines 171-253): the OS-produced values
(connection pointer, screen number, generated window id, interned delete
atom) are inputs; the requested geometry is used only for the CreateWindow
request, and `previous_size` is initialised to `(0, 0)`. -/
def new_linux_x (conn : Nat) (screen_num : Int) (window_id : Nat)
    (wm_del_window : Nat) (_x _y _width _height : Int) : WindowLinuxX :=
  { previous_size := (0, 0)
    connection := conn
    screen := screen_num
    window := window_id
    wm_del_window := wm_del_window }

/-- The body of the `poll_messages_linux_x` loop for one event: the list of
portable events handed to the closure and the updated window state, or
`none` when the source aborts (unknown keysym or button code).  Note the
source reads `event.event_x()` into both coordinates of `MouseMove`. -/
def step_linux_x (w : WindowLinuxX) : XEvent → Option (List WindowEvent × WindowLinuxX)
  | .keyPress key_sym =>
      (translate_key_sym key_sym).map fun key => ([.Input (.KeyDown key)], w)
  | .keyRelease key_sym =>
      (translate_key_sym key_sym).map fun key => ([.Input (.KeyUp key)], w)
  | .buttonPress detail =>
      (button_of_detail detail).map fun button => ([.Input (.MouseDown button)], w)
  | .buttonRelease detail =>
      (button_of_detail detail).map fun button => ([.Input (.MouseUp button)], w)
  | .motionNotify event_x _event_y =>
      some ([.Input (.MouseMove event_x event_x)], w)
  | .configureNotify width height =>
      if w.previous_size ≠ (width, height) then
        some ([.Resize width height], { w with previous_size := (width, height) })
      else
        some ([], w)
  | .clientMessage data32_head =>
      if data32_head = w.wm_del_window then some ([.Close], w) else some ([], w)
  | .other => some ([], w)

/-- `Window::poll_messages_linux_x` over the queue of currently pending
events, threading the state through `step_linux_x` in delivery order. -/
def poll_messages_linux_x : WindowLinuxX → List XEvent → Option (List WindowEvent × WindowLinuxX)
  | w, [] => some ([], w)
  | w, e :: es =>
      match step_linux_x w e with
      | none => none
      | some (evs, w') =>
          match poll_messages_linux_x w' es with
          | none => none
          | some (rest, w'') => some (evs ++ rest, w'')

/-- The cross-platform raw window handle (the `raw-window-handle` crate's
variants used by this library). -/
inductive RawWindowHandle
  | Xcb (window : Nat)
  | Win32 (hwnd : Int) (hinstance : Option Int)
deriving DecidableEq

/-- The cross-platform raw display handle. -/
inductive RawDisplayHandle
  | Xcb (connection : Nat) (screen : Int)
  | Windows
deriving DecidableEq

/-- `Window::raw_window_handle_linux_x`: wraps the stored window id. -/
def raw_window_handle_linux_x (w : WindowLinuxX) : RawWindowHandle :=
  .Xcb w.window

/-- `Window::raw_display_handle_linux_x`: wraps the stored raw connection
pointer and screen number. -/
def raw_display_handle_linux_x (w : WindowLinuxX) : RawDisplayHandle :=
  .Xcb w.connection w.screen

/-! Win32 message constants (values of the `windows-sys` re-exports the
source imports). -/

def WM_DESTROY : Nat := 0x0002
def WM_CLOSE : Nat := 0x0010
def WM_ERASEBKGND : Nat := 0x0014
def WM_KEYDOWN : Nat := 0x0100
def WM_KEYUP : Nat := 0x0101
def WM_SYSKEYDOWN : Nat := 0x0104
def WM_SYSKEYUP : Nat := 0x0105
def WM_MOUSEMOVE : Nat := 0x0200
def WM_LBUTTONDOWN : Nat := 0x0201
def WM_LBUTTONUP : Nat := 0x0202
def WM_RBUTTONDOWN : Nat := 0x0204
def WM_RBUTTONUP : Nat := 0x0205
def WM_MBUTTONDOWN : Nat := 0x0207
def WM_MBUTTONUP : Nat := 0x0208
def WM_MOUSEWHEEL : Nat := 0x020A
def WM_EXITSIZEMOVE : Nat := 0x0232
def WM_USER : Nat := 0x0400

/-- `CUSTOM_CLOSE_MESSAGE = WM_USER + 0` (lib.rs line 99). -/
def CUSTOM_CLOSE_MESSAGE : Nat := WM_USER + 0

/-- `CUSTOM_SIZE_MESSAGE = WM_USER + 1` (lib.rs line 101). -/
def CUSTOM_SIZE_MESSAGE : Nat := WM_USER + 1

/-- The Windows build of the source `struct Window`. -/
structure WindowWin32 where
  previous_size : Nat × Nat
  h_instance : Int
  hwnd : Int
deriving DecidableEq

/-- OS side effects the Windows code can request: posting a message to a
window's queue, posting the quit message, deferring to `DefWindowProcW`,
and destroying the native window. -/
inductive WndAction
  | postMessage (hwnd : Int) (msg wParam lParam : Nat)
  | postQuit
  | defaultProc
  | destroyWindow (hwnd : Int)
deriving DecidableEq

/-- The window procedure `win32_process_message` (lib.rs lines 104-127):
the OS actions it requests and its `LRESULT` (`none` stands for whatever
`DefWindowProcW` returns). -/
def win32_process_message (hwnd : Int) (msg : Nat) (_w_param _l_param : Nat) :
    List WndAction × Option Int :=
  if msg = WM_ERASEBKGND then ([], some 1)
  else if msg = WM_CLOSE then ([.postMessage hwnd CUSTOM_CLOSE_MESSAGE 0 0], some 0)
  else if msg = WM_DESTROY then ([.postQuit], some 0)
  else if msg = WM_EXITSIZEMOVE then
    ([.postMessage hwnd CUSTOM_SIZE_MESSAGE 0 0, .defaultProc], none)
  else ([.defaultProc], none)

/-- One Win32 queue message.  `LPARAM`/`WPARAM` are modelled by their
64-bit two's-complement bit patterns as `Nat`. -/
structure MSG where
  message : Nat
  wParam : Nat
  lParam : Nat
deriving DecidableEq

/-- `utility::get_x_y_lparam`: low 16 bits as signed x, next 16 bits as
signed y (`(l & 0xFFFF) as i16`, `((l >> 16) & 0xFFFF) as i16`). -/
def get_x_y_lparam (l_param : Nat) : Int × Int :=
  (i16_of_bits (l_param % 65536), i16_of_bits (l_param / 65536 % 65536))

/-- `utility::get_wheel_delta_wparam`: bits 16-31 as a signed 16-bit
value (`((w >> 16) & 0xFFFF) as i16`). -/
def get_wheel_delta_wparam (w_param : Nat) : Int :=
  i16_of_bits (w_param / 65536 % 65536)

/-- `Window::new_win32` (lib.rs lines 481-574): the module handle, the
created window handle and the `AdjustWindowRectEx` border metrics are
environment inputs.  The outer geometry adds the border rectangle to the
requested client geometry, and `previous_size` is initialised to the outer
`(window_width, window_height)` pair cast `as u32`. -/
def new_win32 (h_instance hwnd : Int)
    (border_left border_top border_right border_bottom : Int)
    (_x _y width height : Int) : WindowWin32 :=
  let window_width := width + (border_right - border_left)
  let window_height := height + (border_bottom - border_top)
  { previous_size := (u32_of_int window_width, u32_of_int window_height)
    h_instance := h_instance
    hwnd := hwnd }

/-- The Translate/Dispatch half of the `poll_messages_win32` loop body:
every retrieved message except the two custom bookkeeping messages is
dispatched, which runs the window procedure on it. -/
def dispatch_actions (s : WindowWin32) (m : MSG) : List WndAction :=
  if m.message = CUSTOM_CLOSE_MESSAGE ∨ m.message = CUSTOM_SIZE_MESSAGE then []
  else (win32_process_message s.hwnd m.message m.wParam m.lParam).1

/-- The body of the `poll_messages_win32` loop for one retrieved message:
the dispatch step above followed by the event match.  `client_size` is the
`(width, height)` the `GetClientRect` query returns at this moment, already
cast `as u32`.  `none` models the process abort in `Keys::from_usize`. -/
def step_win32 (s : WindowWin32) (client_size : Nat × Nat) (m : MSG) :
    Option (List WindowEvent × WindowWin32 × List WndAction) :=
  if m.message = CUSTOM_CLOSE_MESSAGE then
    some ([.Close], s, dispatch_actions s m)
  else if m.message = CUSTOM_SIZE_MESSAGE then
    let width := client_size.1
    let height := client_size.2
    if s.previous_size ≠ (width, height) then
      some ([.Resize width height], { s with previous_size := (width, height) },
        dispatch_actions s m)
    else
      some ([], s, dispatch_actions s m)
  else if m.message = WM_MOUSEMOVE then
    let mouse_pos := get_x_y_lparam m.lParam
    some ([.Input (.MouseMove mouse_pos.1 mouse_pos.2)], s, dispatch_actions s m)
  else if m.message = WM_KEYDOWN ∨ m.message = WM_SYSKEYDOWN then
    if m.lParam / 2 ^ 30 % 2 = 0 then
      (Keys.from_usize m.wParam).map fun key =>
        ([.Input (.KeyDown key)], s, dispatch_actions s m)
    else
      some ([], s, dispatch_actions s m)
  else if m.message = WM_KEYUP ∨ m.message = WM_SYSKEYUP then
    (Keys.from_usize m.wParam).map fun key =>
      ([.Input (.KeyUp key)], s, dispatch_actions s m)
  else if m.message = WM_MOUSEWHEEL then
    let dz : Int := if get_wheel_delta_wparam m.wParam < 0 then -1 else 1
    some ([.Input (.MouseWheelMove dz)], s, dispatch_actions s m)
  else if m.message = WM_LBUTTONDOWN then
    some ([.Input (.MouseDown .Left)], s, dispatch_actions s m)
  else if m.message = WM_MBUTTONDOWN then
    some ([.Input (.MouseDown .Middle)], s, dispatch_actions s m)
  else if m.message = WM_RBUTTONDOWN then
    some ([.Input (.MouseDown .Right)], s, dispatch_actions s m)
  else if m.message = WM_LBUTTONUP then
    some ([.Input (.MouseUp .Left)], s, dispatch_actions s m)
  else if m.message = WM_MBUTTONUP then
    some ([.Input (.MouseUp .Middle)], s, dispatch_actions s m)
  else if m.message = WM_RBUTTONUP then
    some ([.Input (.MouseUp .Right)], s, dispatch_actions s m)
  else
    some ([], s, dispatch_actions s m)

/-- `Window::poll_messages_win32` over the currently pending queue.  Each
message is paired with the client size `GetClientRect` reports at the
moment it is processed. -/
def poll_messages_win32 : WindowWin32 → List (MSG × (Nat × Nat)) →
    Option (List WindowEvent × WindowWin32 × List WndAction)
  | s, [] => some ([], s, [])
  | s, (m, client_size) :: rest =>
      match step_win32 s client_size m with
      | none => none
      | some (evs, s', acts) =>
          match poll_messages_win32 s' rest with
          | none => none
          | some (evs2, s'', acts2) => some (evs ++ evs2, s'', acts ++ acts2)

/-- `Window::raw_window_handle_win32`: wraps the stored `hwnd`; the
`hinstance` field is `NonZeroIsize::new(self.h_instance)`, i.e. `None`
exactly when the stored instance handle is zero. -/
def raw_window_handle_win32 (s : WindowWin32) : RawWindowHandle :=
  .Win32 s.hwnd (if s.h_instance = 0 then none else some s.h_instance)

/-- `Window::raw_display_handle_windows`. -/
def raw_display_handle_windows (_s : WindowWin32) : RawDisplayHandle :=
  .Windows

/-- The `Drop` impl for the Windows build (lib.rs lines 657-662): teardown
destroys the native window, and nothing else does. -/
def window_drop_win32 (s : WindowWin32) : List WndAction :=
  [.destroyWindow s.hwnd]

/-- Packing a signed 16-bit pair into an LPARAM-style word as the spec's
round-trip property describes it: x in the low 16 bits, y in the next
16 bits. -/
def pack_x_y_lparam (x y : Int) : Nat :=
  bits_of_i16 x + bits_of_i16 y * 65536

/-- A lookup in an association table succeeds exactly on its key column. -/
theorem lookup_isSome_iff_mem_keys {β : Type} (l : List (Nat × β)) (a : Nat) :
    (l.lookup a).isSome ↔ a ∈ l.map Prod.fst := by
  induction l with
  | nil => simp [List.lookup]
  | cons p t ih =>
      obtain ⟨k, v⟩ := p
      by_cases h : a = k
      · subst h
        simp [List.lookup]
      · simp [List.lookup, beq_false_of_ne h, h, ih]

/-- C7: every platform key or mouse-button code absent from the decoding
tables is a fatal decode failure (modelled `none`), and every listed code
decodes to exactly one portable value: each decoder succeeds precisely on
its table. -/
theorem c7_decode_total_on_tables :
    (∀ c : Nat, (Keys.from_usize c).isSome ↔ c ∈ win32_key_codes) ∧
    (∀ ks : Nat, (translate_key_sym ks).isSome ↔ ks ∈ x_key_syms) ∧
    (∀ d : Nat, (button_of_detail d).isSome ↔ d ∈ [1, 2, 3]) := by
  refine ⟨?_, ?_, ?_⟩
  · intro c
    rw [Keys.from_usize, lookup_isSome_iff_mem_keys,
      show win32_key_table.map Prod.fst = win32_key_codes from by decide]
  · intro ks
    rw [translate_key_sym, lookup_isSome_iff_mem_keys,
      show x_key_table.map Prod.fst = x_key_syms from by decide]
  · intro d
    unfold button_of_detail
    split <;> simp_all

/-- C8: decoding with `get_x_y_lparam` inverts packing a signed 16-bit
pair into the low and next 16 bits of an LPARAM-style word. -/
theorem c8_xy_lparam_roundtrip (x y : Int)
    (hx1 : -32768 ≤ x) (hx2 : x < 32768)
    (hy1 : -32768 ≤ y) (hy2 : y < 32768) :
    get_x_y_lparam (pack_x_y_lparam x y) = (x, y) := by
  unfold get_x_y_lparam pack_x_y_lparam bits_of_i16 i16_of_bits
  simp only [Prod.mk.injEq]
  constructor <;> (split_ifs <;> omega)

theorem c8_xy_lparam_roundtrip_witness :
    get_x_y_lparam (pack_x_y_lparam 5 (-7)) = (5, -7) :=
  c8_xy_lparam_roundtrip 5 (-7) (by decide) (by decide) (by decide) (by decide)

/-- C5 (failing input): on the Linux variant a motion notification with
`event_x = 3`, `event_y = 5` is translated to `MouseMove(3, 3)` — the
source reads `event.event_x()` into both coordinates — where the claim
requires `MouseMove(3, 5)`. -/
theorem c5_linux_motion_bug :
    step_linux_x ⟨(0, 0), 0, 0, 0, 0⟩ (.motionNotify 3 5) =
      some ([.Input (.MouseMove 3 3)], ⟨(0, 0), 0, 0, 0, 0⟩) := by
  decide

/-- C4 (counterexample): X11 delivers wheel scrolling as press events of
buttons 4 (up) and 5 (down); the Linux variant's button match only accepts
buttons 1-3, so a wheel notification aborts the process (`none`) instead of
emitting `MouseWheelMove`. -/
theorem c4_counterexample :
    step_linux_x ⟨(0, 0), 0, 0, 0, 0⟩ (.buttonPress 4) = none := by
  decide

/-- C4 (amended): on the Windows variant a wheel message always emits
exactly one `MouseWheelMove` whose delta is `+1` for a non-negative raw
delta and `-1` for a negative one, so the magnitude is never observable;
the Linux variant does not handle wheel notifications at all — the X wheel
button codes 4 and 5 hit the unrecognized-button abort. -/
theorem c4_wheel_normalization_win32_only (s : WindowWin32) (cs : Nat × Nat)
    (m : MSG) (w : WindowLinuxX) (hm : m.message = WM_MOUSEWHEEL) :
    (0 ≤ get_wheel_delta_wparam m.wParam →
      step_win32 s cs m = some ([.Input (.MouseWheelMove 1)], s, [.defaultProc])) ∧
    (get_wheel_delta_wparam m.wParam < 0 →
      step_win32 s cs m = some ([.Input (.MouseWheelMove (-1))], s, [.defaultProc])) ∧
    (∃ d : Int, (d = 1 ∨ d = -1) ∧
      step_win32 s cs m = some ([.Input (.MouseWheelMove d)], s, [.defaultProc])) ∧
    step_linux_x w (.buttonPress 4) = none ∧
    step_linux_x w (.buttonPress 5) = none := by
  obtain ⟨msg, wp, lp⟩ := m
  simp only [MSG.message] at hm
  subst hm
  refine ⟨?_, ?_, ?_, ?_, ?_⟩
  · intro hd
    simp [step_win32, dispatch_actions, win32_process_message, CUSTOM_CLOSE_MESSAGE, CUSTOM_SIZE_MESSAGE,
      WM_USER, WM_MOUSEWHEEL, WM_MOUSEMOVE, WM_KEYDOWN, WM_SYSKEYDOWN, WM_KEYUP,
      WM_SYSKEYUP, WM_ERASEBKGND, WM_CLOSE, WM_DESTROY, WM_EXITSIZEMOVE,
      not_lt.mpr hd]
  · intro hd
    simp [step_win32, dispatch_actions, win32_process_message, CUSTOM_CLOSE_MESSAGE, CUSTOM_SIZE_MESSAGE,
      WM_USER, WM_MOUSEWHEEL, WM_MOUSEMOVE, WM_KEYDOWN, WM_SYSKEYDOWN, WM_KEYUP,
      WM_SYSKEYUP, WM_ERASEBKGND, WM_CLOSE, WM_DESTROY, WM_EXITSIZEMOVE, hd]
  · by_cases hd : get_wheel_delta_wparam wp < 0
    · refine ⟨-1, Or.inr rfl, ?_⟩
      simp [step_win32, dispatch_actions, win32_process_message, CUSTOM_CLOSE_MESSAGE, CUSTOM_SIZE_MESSAGE,
        WM_USER, WM_MOUSEWHEEL, WM_MOUSEMOVE, WM_KEYDOWN, WM_SYSKEYDOWN, WM_KEYUP,
        WM_SYSKEYUP, WM_ERASEBKGND, WM_CLOSE, WM_DESTROY, WM_EXITSIZEMOVE, hd]
    · refine ⟨1, Or.inl rfl, ?_⟩
      simp [step_win32, dispatch_actions, win32_process_message, CUSTOM_CLOSE_MESSAGE, CUSTOM_SIZE_MESSAGE,
        WM_USER, WM_MOUSEWHEEL, WM_MOUSEMOVE, WM_KEYDOWN, WM_SYSKEYDOWN, WM_KEYUP,
        WM_SYSKEYUP, WM_ERASEBKGND, WM_CLOSE, WM_DESTROY, WM_EXITSIZEMOVE, hd]
  · rfl
  · rfl

theorem c4_wheel_normalization_win32_only_witness :
    step_win32 ⟨(0, 0), 1, 1⟩ (0, 0) ⟨WM_MOUSEWHEEL, 0, 0⟩ =
      some ([.Input (.MouseWheelMove 1)], ⟨(0, 0), 1, 1⟩, [.defaultProc]) ∧
    step_linux_x ⟨(0, 0), 0, 0, 0, 0⟩ (.buttonPress 5) = none :=
  ⟨(c4_wheel_normalization_win32_only ⟨(0, 0), 1, 1⟩ (0, 0) ⟨WM_MOUSEWHEEL, 0, 0⟩
      ⟨(0, 0), 0, 0, 0, 0⟩ rfl).1 (by decide),
   (c4_wheel_normalization_win32_only ⟨(0, 0), 1, 1⟩ (0, 0) ⟨WM_MOUSEWHEEL, 0, 0⟩
      ⟨(0, 0), 0, 0, 0, 0⟩ rfl).2.2.2.2⟩

/-- C1: a size-change notification emits `Resize(w, h)` exactly when the
decoded client size differs from `previous_size` at that moment, after
which `previous_size` is `(w, h)`; re-delivering the same size emits
nothing after the first.  Both platform variants. -/
theorem c1_resize_iff_size_changed :
    (∀ (w : WindowLinuxX) (wd ht : Nat) (evs : List WindowEvent) (w' : WindowLinuxX),
      step_linux_x w (.configureNotify wd ht) = some (evs, w') →
        (evs = if w.previous_size = (wd, ht) then [] else [.Resize wd ht]) ∧
        (WindowEvent.Resize wd ht ∈ evs ↔ (wd, ht) ≠ w.previous_size) ∧
        w'.previous_size = (wd, ht) ∧
        poll_messages_linux_x w [.configureNotify wd ht, .configureNotify wd ht] =
          some (evs, w')) ∧
    (∀ (s : WindowWin32) (wd ht wp lp : Nat) (evs : List WindowEvent)
        (s' : WindowWin32) (acts : List WndAction),
      step_win32 s (wd, ht) ⟨CUSTOM_SIZE_MESSAGE, wp, lp⟩ = some (evs, s', acts) →
        (evs = if s.previous_size = (wd, ht) then [] else [.Resize wd ht]) ∧
        (WindowEvent.Resize wd ht ∈ evs ↔ (wd, ht) ≠ s.previous_size) ∧
        s'.previous_size = (wd, ht) ∧
        step_win32 s' (wd, ht) ⟨CUSTOM_SIZE_MESSAGE, wp, lp⟩ = some ([], s', acts)) := by
  constructor
  · intro w wd ht evs w' h
    by_cases hc : w.previous_size = (wd, ht)
    · simp only [step_linux_x, hc, ne_eq, not_true_eq_false, if_false,
        Option.some.injEq, Prod.mk.injEq] at h
      obtain ⟨rfl, rfl⟩ := h
      refine ⟨by simp [hc], by simp [hc.symm], hc, ?_⟩
      simp [poll_messages_linux_x, step_linux_x, hc]
    · simp only [step_linux_x, hc, ne_eq, not_false_eq_true, if_true,
        Option.some.injEq, Prod.mk.injEq] at h
      obtain ⟨rfl, rfl⟩ := h
      refine ⟨by simp [hc], ?_, rfl, ?_⟩
      · simp
        exact fun he => hc he.symm
      · simp [poll_messages_linux_x, step_linux_x, hc]
  · intro s wd ht wp lp evs s' acts h
    have hne : CUSTOM_SIZE_MESSAGE ≠ CUSTOM_CLOSE_MESSAGE := by decide
    by_cases hc : s.previous_size = (wd, ht)
    · simp only [step_win32, MSG.message, hne, if_false, if_true, hc, ne_eq,
        not_true_eq_false, Option.some.injEq, Prod.mk.injEq] at h
      obtain ⟨rfl, rfl, rfl⟩ := h
      refine ⟨by simp [hc], by simp [hc.symm], hc, ?_⟩
      simp [step_win32, MSG.message, hne, hc]
    · simp only [step_win32, MSG.message, hne, if_false, if_true, hc, ne_eq,
        not_false_eq_true, Option.some.injEq, Prod.mk.injEq] at h
      obtain ⟨rfl, rfl, rfl⟩ := h
      refine ⟨by simp [hc], ?_, rfl, ?_⟩
      · simp
        exact fun he => hc he.symm
      · simp [step_win32, dispatch_actions, MSG.message, hne]

theorem c1_resize_iff_size_changed_witness :
    (WindowEvent.Resize 500 600 ∈ [WindowEvent.Resize 500 600] ↔
      ((500 : Nat), (600 : Nat)) ≠ ((400 : Nat), (600 : Nat))) ∧
    poll_messages_linux_x ⟨(400, 600), 0, 0, 0, 0⟩
        [.configureNotify 500 600, .configureNotify 500 600] =
      some ([.Resize 500 600], ⟨(500, 600), 0, 0, 0, 0⟩) :=
  have h := (c1_resize_iff_size_changed.1 ⟨(400, 600), 0, 0, 0, 0⟩ 500 600
    [.Resize 500 600] ⟨(500, 600), 0, 0, 0, 0⟩ (by decide))
  ⟨h.2.1, h.2.2.2⟩

/-- C2: a key-down notification the platform marks as an auto-repeat of a
held key (Win32 bit 30 of LPARAM) emits nothing at all, while a key-up
notification always emits exactly one `KeyUp` for its decoded key, with no
repeat suppression, on both variants (X11 core key events carry no repeat
mark, so no Linux key-down is marked as a repeat). -/
theorem c2_repeat_suppression_and_keyup :
    (∀ (s : WindowWin32) (cs : Nat × Nat) (m : MSG),
      (m.message = WM_KEYDOWN ∨ m.message = WM_SYSKEYDOWN) →
      m.lParam / 2 ^ 30 % 2 = 1 →
      step_win32 s cs m = some ([], s, [.defaultProc])) ∧
    (∀ (s : WindowWin32) (cs : Nat × Nat) (m : MSG) (key : Keys),
      (m.message = WM_KEYUP ∨ m.message = WM_SYSKEYUP) →
      Keys.from_usize m.wParam = some key →
      step_win32 s cs m = some ([.Input (.KeyUp key)], s, [.defaultProc])) ∧
    (∀ (w : WindowLinuxX) (key_sym : Nat) (key : Keys),
      translate_key_sym key_sym = some key →
      step_linux_x w (.keyRelease key_sym) = some ([.Input (.KeyUp key)], w)) := by
  refine ⟨?_, ?_, ?_⟩
  · intro s cs m hm hrep
    obtain ⟨msg, wp, lp⟩ := m
    simp only [MSG.message] at hm
    simp only [MSG.lParam] at hrep
    rcases hm with rfl | rfl <;>
      simp [step_win32, dispatch_actions, win32_process_message, CUSTOM_CLOSE_MESSAGE,
        CUSTOM_SIZE_MESSAGE, WM_USER, WM_KEYDOWN, WM_SYSKEYDOWN, WM_MOUSEMOVE,
        WM_ERASEBKGND, WM_CLOSE, WM_DESTROY, WM_EXITSIZEMOVE] <;> omega
  · intro s cs m key hm hkey
    obtain ⟨msg, wp, lp⟩ := m
    simp only [MSG.message] at hm
    simp only [MSG.wParam] at hkey
    rcases hm with rfl | rfl <;>
      simp [step_win32, dispatch_actions, win32_process_message, CUSTOM_CLOSE_MESSAGE,
        CUSTOM_SIZE_MESSAGE, WM_USER, WM_KEYUP, WM_SYSKEYUP, WM_KEYDOWN, WM_SYSKEYDOWN,
        WM_MOUSEMOVE, WM_ERASEBKGND, WM_CLOSE, WM_DESTROY, WM_EXITSIZEMOVE, hkey]
  · intro w key_sym key hkey
    simp [step_linux_x, hkey]

theorem c2_repeat_suppression_and_keyup_witness :
    step_win32 ⟨(0, 0), 1, 1⟩ (0, 0) ⟨WM_KEYDOWN, 0x41, 2 ^ 30⟩ =
      some ([], ⟨(0, 0), 1, 1⟩, [.defaultProc]) ∧
    step_win32 ⟨(0, 0), 1, 1⟩ (0, 0) ⟨WM_KEYUP, 0x41, 0⟩ =
      some ([.Input (.KeyUp .A)], ⟨(0, 0), 1, 1⟩, [.defaultProc]) ∧
    step_linux_x ⟨(0, 0), 0, 0, 0, 0⟩ (.keyRelease 0xFF08) =
      some ([.Input (.KeyUp .Backspace)], ⟨(0, 0), 0, 0, 0, 0⟩) :=
  ⟨c2_repeat_suppression_and_keyup.1 ⟨(0, 0), 1, 1⟩ (0, 0) ⟨WM_KEYDOWN, 0x41, 2 ^ 30⟩
      (Or.inl rfl) (by decide),
   c2_repeat_suppression_and_keyup.2.1 ⟨(0, 0), 1, 1⟩ (0, 0) ⟨WM_KEYUP, 0x41, 0⟩ .A
      (Or.inl rfl) (by decide),
   c2_repeat_suppression_and_keyup.2.2 ⟨(0, 0), 0, 0, 0, 0⟩ 0xFF08 .Backspace (by decide)⟩

/-- C3 (counterexample): `new_linux_x` initialises `previous_size` to
`(0, 0)`, not to the requested client size — constructing a window with
requested client size 400 by 600 leaves `previous_size` at `(0, 0)`. -/
theorem c3_counterexample :
    (new_linux_x 1 0 7 9 200 200 400 600).previous_size ≠ (400, 600) := by
  decide

/-- C3 (amended): after `new`, `previous_size` is `(0, 0)` on the Linux
variant and the adjusted *outer* window size (requested client size plus
the border metrics) cast `as u32` on the Windows variant — not the client
size; consequently on Linux the first size notification always emits a
`Resize`, even when it merely reports the size the window was created
with. -/
theorem c3_initial_previous_size (conn : Nat) (screen_num : Int)
    (window_id wm_del : Nat) (x y width height h_inst hwnd bl bt br bb : Int)
    (cw ch : Nat) (hc : (cw, ch) ≠ ((0 : Nat), (0 : Nat))) :
    (new_linux_x conn screen_num window_id wm_del x y width height).previous_size
      = (0, 0) ∧
    step_linux_x (new_linux_x conn screen_num window_id wm_del x y width height)
        (.configureNotify cw ch) =
      some ([.Resize cw ch],
        { new_linux_x conn screen_num window_id wm_del x y width height with
            previous_size := (cw, ch) }) ∧
    (new_win32 h_inst hwnd bl bt br bb x y width height).previous_size =
      (u32_of_int (width + (br - bl)), u32_of_int (height + (bb - bt))) := by
  refine ⟨rfl, ?_, rfl⟩
  have h0 : ((0 : Nat × Nat)) ≠ (cw, ch) := fun he => hc he.symm
  simp [step_linux_x, new_linux_x, h0]

theorem c3_initial_previous_size_witness :
    (new_linux_x 1 0 7 9 200 200 400 600).previous_size = (0, 0) ∧
    step_linux_x (new_linux_x 1 0 7 9 200 200 400 600) (.configureNotify 400 600) =
      some ([.Resize 400 600],
        { new_linux_x 1 0 7 9 200 200 400 600 with previous_size := (400, 600) }) :=
  have h := c3_initial_previous_size 1 0 7 9 200 200 400 600 3 5 0 0 0 0 400 600
    (by decide)
  ⟨h.1, h.2.1⟩

/-- C10: on the Windows variant the wheel normalization maps every
extracted raw delta that is not strictly negative — including exactly
zero — to an emitted delta of `+1` (one `MouseWheelMove 1` event). -/
theorem c10_nonneg_wheel_delta_plus_one (s : WindowWin32) (cs : Nat × Nat)
    (m : MSG) (hm : m.message = WM_MOUSEWHEEL)
    (hd : 0 ≤ get_wheel_delta_wparam m.wParam) :
    step_win32 s cs m = some ([.Input (.MouseWheelMove 1)], s, [.defaultProc]) := by
  obtain ⟨msg, wp, lp⟩ := m
  simp only [MSG.message] at hm
  subst hm
  simp only [MSG.wParam] at hd
  simp [step_win32, dispatch_actions, win32_process_message, CUSTOM_CLOSE_MESSAGE,
    CUSTOM_SIZE_MESSAGE, WM_USER, WM_MOUSEWHEEL, WM_MOUSEMOVE, WM_KEYDOWN,
    WM_SYSKEYDOWN, WM_KEYUP, WM_SYSKEYUP, WM_ERASEBKGND, WM_CLOSE, WM_DESTROY,
    WM_EXITSIZEMOVE, not_lt.mpr hd]

theorem c10_nonneg_wheel_delta_plus_one_witness :
    step_win32 ⟨(0, 0), 1, 1⟩ (0, 0) ⟨WM_MOUSEWHEEL, 123, 0⟩ =
      some ([.Input (.MouseWheelMove 1)], ⟨(0, 0), 1, 1⟩, [.defaultProc]) :=
  c10_nonneg_wheel_delta_plus_one ⟨(0, 0), 1, 1⟩ (0, 0) ⟨WM_MOUSEWHEEL, 123, 0⟩
    rfl (by decide)

theorem win32_process_message_no_destroy (hwnd : Int) (msg wp lp : Nat) (hw : Int) :
    WndAction.destroyWindow hw ∉ (win32_process_message hwnd msg wp lp).1 := by
  unfold win32_process_message
  split_ifs <;> simp

theorem dispatch_actions_no_destroy (s : WindowWin32) (m : MSG) (hw : Int) :
    WndAction.destroyWindow hw ∉ dispatch_actions s m := by
  unfold dispatch_actions
  split_ifs
  · simp
  · exact win32_process_message_no_destroy _ _ _ _ _

theorem step_win32_frame (s : WindowWin32) (cs : Nat × Nat) (m : MSG)
    (out : List WindowEvent × WindowWin32 × List WndAction)
    (h : step_win32 s cs m = some out) :
    out.2.1.h_instance = s.h_instance ∧ out.2.1.hwnd = s.hwnd ∧
    ∀ hw : Int, WndAction.destroyWindow hw ∉ out.2.2 := by
  unfold step_win32 at h
  by_cases h1 : m.message = CUSTOM_CLOSE_MESSAGE
  · rw [if_pos h1] at h
    obtain rfl := Option.some.inj h
    exact ⟨rfl, rfl, fun hw => dispatch_actions_no_destroy s m hw⟩
  rw [if_neg h1] at h
  by_cases h2 : m.message = CUSTOM_SIZE_MESSAGE
  · rw [if_pos h2] at h
    simp only [] at h
    split_ifs at h <;>
      (obtain rfl := Option.some.inj h
       exact ⟨rfl, rfl, fun hw => dispatch_actions_no_destroy s m hw⟩)
  rw [if_neg h2] at h
  by_cases h3 : m.message = WM_MOUSEMOVE
  · rw [if_pos h3] at h
    obtain rfl := Option.some.inj h
    exact ⟨rfl, rfl, fun hw => dispatch_actions_no_destroy s m hw⟩
  rw [if_neg h3] at h
  by_cases h4 : m.message = WM_KEYDOWN ∨ m.message = WM_SYSKEYDOWN
  · rw [if_pos h4] at h
    split_ifs at h
    · rcases hk : Keys.from_usize m.wParam with _ | key <;> rw [hk] at h
      · exact Option.noConfusion h
      · simp only [Option.map_some'] at h
        obtain rfl := Option.some.inj h
        exact ⟨rfl, rfl, fun hw => dispatch_actions_no_destroy s m hw⟩
    · obtain rfl := Option.some.inj h
      exact ⟨rfl, rfl, fun hw => dispatch_actions_no_destroy s m hw⟩
  rw [if_neg h4] at h
  by_cases h5 : m.message = WM_KEYUP ∨ m.message = WM_SYSKEYUP
  · rw [if_pos h5] at h
    rcases hk : Keys.from_usize m.wParam with _ | key <;> rw [hk] at h
    · exact Option.noConfusion h
    · simp only [Option.map_some'] at h
      obtain rfl := Option.some.inj h
      exact ⟨rfl, rfl, fun hw => dispatch_actions_no_destroy s m hw⟩
  rw [if_neg h5] at h
  by_cases h6 : m.message = WM_MOUSEWHEEL
  · rw [if_pos h6] at h
    obtain rfl := Option.some.inj h
    exact ⟨rfl, rfl, fun hw => dispatch_actions_no_destroy s m hw⟩
  rw [if_neg h6] at h
  by_cases h7 : m.message = WM_LBUTTONDOWN
  · rw [if_pos h7] at h
    obtain rfl := Option.some.inj h
    exact ⟨rfl, rfl, fun hw => dispatch_actions_no_destroy s m hw⟩
  rw [if_neg h7] at h
  by_cases h8 : m.message = WM_MBUTTONDOWN
  · rw [if_pos h8] at h
    obtain rfl := Option.some.inj h
    exact ⟨rfl, rfl, fun hw => dispatch_actions_no_destroy s m hw⟩
  rw [if_neg h8] at h
  by_cases h9 : m.message = WM_RBUTTONDOWN
  · rw [if_pos h9] at h
    obtain rfl := Option.some.inj h
    exact ⟨rfl, rfl, fun hw => dispatch_actions_no_destroy s m hw⟩
  rw [if_neg h9] at h
  by_cases h10 : m.message = WM_LBUTTONUP
  · rw [if_pos h10] at h
    obtain rfl := Option.some.inj h
    exact ⟨rfl, rfl, fun hw => dispatch_actions_no_destroy s m hw⟩
  rw [if_neg h10] at h
  by_cases h11 : m.message = WM_MBUTTONUP
  · rw [if_pos h11] at h
    obtain rfl := Option.some.inj h
    exact ⟨rfl, rfl, fun hw => dispatch_actions_no_destroy s m hw⟩
  rw [if_neg h11] at h
  by_cases h12 : m.message = WM_RBUTTONUP
  · rw [if_pos h12] at h
    obtain rfl := Option.some.inj h
    exact ⟨rfl, rfl, fun hw => dispatch_actions_no_destroy s m hw⟩
  rw [if_neg h12] at h
  obtain rfl := Option.some.inj h
  exact ⟨rfl, rfl, fun hw => dispatch_actions_no_destroy s m hw⟩

theorem poll_win32_frame (s : WindowWin32) (msgs : List (MSG × (Nat × Nat)))
    (out : List WindowEvent × WindowWin32 × List WndAction)
    (h : poll_messages_win32 s msgs = some out) :
    out.2.1.h_instance = s.h_instance ∧ out.2.1.hwnd = s.hwnd ∧
    ∀ hw : Int, WndAction.destroyWindow hw ∉ out.2.2 := by
  induction msgs generalizing s out with
  | nil =>
      simp only [poll_messages_win32] at h
      obtain rfl := Option.some.inj h
      exact ⟨rfl, rfl, by simp⟩
  | cons p rest ih =>
      obtain ⟨m, cs⟩ := p
      simp only [poll_messages_win32] at h
      split at h
      · exact Option.noConfusion h
      · rename_i evs s' acts heq
        split at h
        · exact Option.noConfusion h
        · rename_i evs2 s'' acts2 heq2
          obtain rfl := Option.some.inj h
          obtain ⟨f1, f2, f3⟩ := step_win32_frame s cs m _ heq
          obtain ⟨g1, g2, g3⟩ := ih s' _ heq2
          refine ⟨g1.trans f1, g2.trans f2, ?_⟩
          intro hw
          simp only [List.mem_append, not_or]
          exact ⟨f3 hw, g3 hw⟩

theorem step_linux_x_frame (w : WindowLinuxX) (e : XEvent)
    (out : List WindowEvent × WindowLinuxX)
    (h : step_linux_x w e = some out) :
    out.2.connection = w.connection ∧ out.2.window = w.window ∧
    out.2.screen = w.screen ∧ out.2.wm_del_window = w.wm_del_window := by
  cases e with
  | keyPress ks =>
      simp only [step_linux_x] at h
      rcases hk : translate_key_sym ks with _ | key <;> rw [hk] at h
      · exact Option.noConfusion h
      · simp only [Option.map_some'] at h
        obtain rfl := Option.some.inj h
        exact ⟨rfl, rfl, rfl, rfl⟩
  | keyRelease ks =>
      simp only [step_linux_x] at h
      rcases hk : translate_key_sym ks with _ | key <;> rw [hk] at h
      · exact Option.noConfusion h
      · simp only [Option.map_some'] at h
        obtain rfl := Option.some.inj h
        exact ⟨rfl, rfl, rfl, rfl⟩
  | buttonPress d =>
      simp only [step_linux_x] at h
      rcases hk : button_of_detail d with _ | b <;> rw [hk] at h
      · exact Option.noConfusion h
      · simp only [Option.map_some'] at h
        obtain rfl := Option.some.inj h
        exact ⟨rfl, rfl, rfl, rfl⟩
  | buttonRelease d =>
      simp only [step_linux_x] at h
      rcases hk : button_of_detail d with _ | b <;> rw [hk] at h
      · exact Option.noConfusion h
      · simp only [Option.map_some'] at h
        obtain rfl := Option.some.inj h
        exact ⟨rfl, rfl, rfl, rfl⟩
  | motionNotify ex ey =>
      simp only [step_linux_x] at h
      obtain rfl := Option.some.inj h
      exact ⟨rfl, rfl, rfl, rfl⟩
  | configureNotify wd ht =>
      simp only [step_linux_x] at h
      split_ifs at h <;>
        (obtain rfl := Option.some.inj h; exact ⟨rfl, rfl, rfl, rfl⟩)
  | clientMessage a =>
      simp only [step_linux_x] at h
      split_ifs at h <;>
        (obtain rfl := Option.some.inj h; exact ⟨rfl, rfl, rfl, rfl⟩)
  | other =>
      simp only [step_linux_x] at h
      obtain rfl := Option.some.inj h
      exact ⟨rfl, rfl, rfl, rfl⟩

theorem poll_linux_x_frame (w : WindowLinuxX) (es : List XEvent)
    (out : List WindowEvent × WindowLinuxX)
    (h : poll_messages_linux_x w es = some out) :
    out.2.connection = w.connection ∧ out.2.window = w.window ∧
    out.2.screen = w.screen ∧ out.2.wm_del_window = w.wm_del_window := by
  induction es generalizing w out with
  | nil =>
      simp only [poll_messages_linux_x] at h
      obtain rfl := Option.some.inj h
      exact ⟨rfl, rfl, rfl, rfl⟩
  | cons e rest ih =>
      simp only [poll_messages_linux_x] at h
      split at h
      · exact Option.noConfusion h
      · rename_i evs w' heq
        split at h
        · exact Option.noConfusion h
        · rename_i evs2 w'' heq2
          obtain rfl := Option.some.inj h
          obtain ⟨f1, f2, f3, f4⟩ := step_linux_x_frame w e _ heq
          obtain ⟨g1, g2, g3, g4⟩ := ih w' _ heq2
          exact ⟨g1.trans f1, g2.trans f2, g3.trans f3, g4.trans f4⟩

/-- C6: a close request — an X11 client message whose first 32-bit datum is
the window's registered WM_DELETE_WINDOW atom, or on Windows the WM_CLOSE
notification routed through the window procedure as the custom close
message — produces exactly one `Close` event, leaves the state unchanged,
and never destroys the native window: no poll ever requests
`DestroyWindow`, which only the `Drop` teardown does. -/
theorem c6_close_exactly_once_no_destroy :
    (∀ w : WindowLinuxX,
      step_linux_x w (.clientMessage w.wm_del_window) = some ([.Close], w)) ∧
    (∀ (w : WindowLinuxX) (a : Nat), a ≠ w.wm_del_window →
      step_linux_x w (.clientMessage a) = some ([], w)) ∧
    (∀ (hwnd : Int) (wp lp : Nat),
      win32_process_message hwnd WM_CLOSE wp lp =
        ([.postMessage hwnd CUSTOM_CLOSE_MESSAGE 0 0], some 0)) ∧
    (∀ (hwnd : Int) (msg wp lp : Nat) (hw : Int),
      WndAction.destroyWindow hw ∉ (win32_process_message hwnd msg wp lp).1) ∧
    (∀ (s : WindowWin32) (cs : Nat × Nat) (wp lp : Nat),
      step_win32 s cs ⟨CUSTOM_CLOSE_MESSAGE, wp, lp⟩ = some ([.Close], s, [])) ∧
    (∀ (s : WindowWin32) (msgs : List (MSG × (Nat × Nat)))
        (out : List WindowEvent × WindowWin32 × List WndAction) (hw : Int),
      poll_messages_win32 s msgs = some out →
        WndAction.destroyWindow hw ∉ out.2.2) ∧
    (∀ s : WindowWin32, window_drop_win32 s = [.destroyWindow s.hwnd]) := by
  refine ⟨?_, ?_, ?_, ?_, ?_, ?_, ?_⟩
  · intro w
    simp [step_linux_x]
  · intro w a ha
    simp [step_linux_x, ha]
  · intro hwnd wp lp
    simp [win32_process_message, WM_CLOSE, WM_ERASEBKGND]
  · intro hwnd msg wp lp hw
    exact win32_process_message_no_destroy hwnd msg wp lp hw
  · intro s cs wp lp
    simp [step_win32, dispatch_actions, MSG.message]
  · intro s msgs out hw h
    exact (poll_win32_frame s msgs out h).2.2 hw
  · intro s
    rfl

theorem c6_close_exactly_once_no_destroy_witness :
    step_linux_x ⟨(3, 4), 1, 2, 0, 9⟩ (.clientMessage 8) =
      some ([], ⟨(3, 4), 1, 2, 0, 9⟩) ∧
    (WndAction.destroyWindow 1 ∉
      (win32_process_message 1 WM_EXITSIZEMOVE 0 0).1) ∧
    (WndAction.destroyWindow 1 ∉
      ([] : List WndAction)) :=
  ⟨c6_close_exactly_once_no_destroy.2.1 ⟨(3, 4), 1, 2, 0, 9⟩ 8 (by decide),
   c6_close_exactly_once_no_destroy.2.2.2.1 1 WM_EXITSIZEMOVE 0 0 1,
   c6_close_exactly_once_no_destroy.2.2.2.2.2.1 ⟨(0, 0), 1, 1⟩ [] ([], ⟨(0, 0), 1, 1⟩, []) 1 rfl⟩

/-- C9: among the window operations only `poll_messages` mutates observable
state, and it only ever changes `previous_size`: every identity field is
preserved by an arbitrary poll on both variants, so the raw window and
display handle accessors return the same value before and after any poll. -/
theorem c9_poll_only_mutates_previous_size :
    (∀ (w : WindowLinuxX) (es : List XEvent)
        (out : List WindowEvent × WindowLinuxX),
      poll_messages_linux_x w es = some out →
        out.2.connection = w.connection ∧ out.2.window = w.window ∧
        out.2.screen = w.screen ∧ out.2.wm_del_window = w.wm_del_window ∧
        raw_window_handle_linux_x out.2 = raw_window_handle_linux_x w ∧
        raw_display_handle_linux_x out.2 = raw_display_handle_linux_x w) ∧
    (∀ (s : WindowWin32) (msgs : List (MSG × (Nat × Nat)))
        (out : List WindowEvent × WindowWin32 × List WndAction),
      poll_messages_win32 s msgs = some out →
        out.2.1.h_instance = s.h_instance ∧ out.2.1.hwnd = s.hwnd ∧
        raw_window_handle_win32 out.2.1 = raw_window_handle_win32 s ∧
        raw_display_handle_windows out.2.1 = raw_display_handle_windows s) := by
  constructor
  · intro w es out h
    obtain ⟨h1, h2, h3, h4⟩ := poll_linux_x_frame w es out h
    refine ⟨h1, h2, h3, h4, ?_, ?_⟩
    · simp [raw_window_handle_linux_x, h2]
    · simp [raw_display_handle_linux_x, h1, h3]
  · intro s msgs out h
    obtain ⟨h1, h2, _⟩ := poll_win32_frame s msgs out h
    exact ⟨h1, h2, by simp [raw_window_handle_win32, h1, h2], rfl⟩

theorem c9_poll_only_mutates_previous_size_witness :
    raw_window_handle_linux_x ⟨(7, 8), 3, 4, 5, 6⟩ =
      raw_window_handle_linux_x ⟨(1, 2), 3, 4, 5, 6⟩ ∧
    raw_display_handle_linux_x ⟨(7, 8), 3, 4, 5, 6⟩ =
      raw_display_handle_linux_x ⟨(1, 2), 3, 4, 5, 6⟩ ∧
    raw_window_handle_win32 ⟨(9, 9), 1, 2⟩ = raw_window_handle_win32 ⟨(0, 0), 1, 2⟩ :=
  ⟨(c9_poll_only_mutates_previous_size.1 ⟨(1, 2), 3, 4, 5, 6⟩
      [.configureNotify 7 8] ([.Resize 7 8], ⟨(7, 8), 3, 4, 5, 6⟩)
      (by decide)).2.2.2.2.1,
   (c9_poll_only_mutates_previous_size.1 ⟨(1, 2), 3, 4, 5, 6⟩
      [.configureNotify 7 8] ([.Resize 7 8], ⟨(7, 8), 3, 4, 5, 6⟩)
      (by decide)).2.2.2.2.2,
   (c9_poll_only_mutates_previous_size.2 ⟨(0, 0), 1, 2⟩
      [(⟨CUSTOM_SIZE_MESSAGE, 0, 0⟩, (9, 9))]
      ([.Resize 9 9], ⟨(9, 9), 1, 2⟩, []) (by decide)).2.2.1⟩

end SimpleWindow
